import Mathlib

/-!
Shallow embedding of the funds-transfer core of the `bankingapi` Django
application (`core/models.py`, `core/serializers.py`, `core/views.py`).

Money is modelled as `Int` in minor units (kobo): all amounts in the source
are exact `Decimal` values with two decimal places, and the only operations
used are addition, subtraction and comparison, which integers capture
exactly.  Record ids are modelled as `Nat` (the source uses random UUIDs;
only identity matters).  Database tables are Lean lists; `objects.get` /
`objects.filter` become `List.find?` / `List.filter`.
-/

deriving instance DecidableEq for Except

namespace BankingApi

/-- Statuses `BankAccount.ACCOUNT_STATUS_CHOICES` in `core/models.py`. -/
inductive AccountStatus
  | ACTIVE | INACTIVE | SUSPENDED | CLOSED
  deriving DecidableEq, Repr

/-- Types `Transaction.TRANSACTION_TYPE_CHOICES` in `core/models.py`. -/
inductive TxType
  | CREDIT | DEBIT
  deriving DecidableEq, Repr

/-- Statuses `Transaction.TRANSACTION_STATUS_CHOICES` in `core/models.py`. -/
inductive TxStatus
  | PENDING | COMPLETED | FAILED | CANCELLED
  deriving DecidableEq, Repr

/-- The requesting user: id plus the stored transaction-PIN credential.
`User.check_transaction_pin` is called by `PINVerificationMixin.validate_pin`
but its body is not part of the transfer core; per the spec's interface
`verifySecret(identity, secret) -> bool` it is modelled as comparison with
the stored secret. -/
structure User where
  userId : Nat
  storedPin : String
  deriving DecidableEq, Repr

/-- Modelled from the spec: `User.check_transaction_pin` — "`authorization`
(transaction PIN or equivalent secret) matches the source account owner's
stored credential". -/
def checkTransactionPin (u : User) (value : String) : Bool :=
  u.storedPin == value

/-- Row of the `bank_accounts` table (`BankAccount` in `core/models.py`). -/
structure BankAccount where
  accId : Nat
  userId : Nat
  accountNumber : String
  balance : Int
  availableBalance : Int
  status : AccountStatus
  isPrimary : Bool
  deriving DecidableEq, Repr

/-- Row of the `transactions` table (`Transaction` in `core/models.py`). -/
structure Txn where
  txId : Nat
  accId : Nat
  txType : TxType
  amount : Int
  balanceBefore : Int
  balanceAfter : Int
  description : String
  referenceNumber : String
  status : TxStatus
  deriving DecidableEq, Repr

/-- The persistent store: the two tables the transfer core reads and
writes, plus a counter supplying fresh transaction ids. -/
structure Store where
  accounts : List BankAccount
  transactions : List Txn
  nextTxId : Nat
  deriving DecidableEq, Repr

def Store.empty : Store := ⟨[], [], 0⟩

/-- Lookup `BankAccount.objects.get(account_number=.., user=..)` in
`TransferSerializer.validate`. -/
def findAccountByNumberAndUser (s : Store) (num : String) (uid : Nat) :
    Option BankAccount :=
  s.accounts.find? (fun a => a.accountNumber == num && a.userId == uid)

/-- Lookup `BankAccount.objects.get(account_number=..)` in
`TransferSerializer.validate`. -/
def findAccountByNumber (s : Store) (num : String) : Option BankAccount :=
  s.accounts.find? (fun a => a.accountNumber == num)

/-- Collision check `Transaction.objects.filter(reference_number=reference).exists()` in
`Transaction.generate_reference_number`. -/
def refExists (s : Store) (ref : String) : Bool :=
  s.transactions.any (fun t => t.referenceNumber == ref)

/-- Generator `Transaction.generate_reference_number` in `core/models.py`: the
candidate is `"TXN" ++ timestamp ++ suffix` for a random 4-digit suffix;
`while Transaction.objects.filter(...).exists()` re-rolls the suffix.  The
source's unbounded loop over an endless random stream is embedded as a run
over an explicit list of drawn suffixes: the result is the first candidate
not present in the store, and `none` means the supplied finite prefix of
the stream was consumed with every candidate colliding (the source would
keep looping). -/
def generateReferenceNumber (s : Store) (timestamp : String) :
    List String → Option String
  | [] => none
  | d :: ds =>
      let reference := "TXN" ++ timestamp ++ d
      if refExists s reference then generateReferenceNumber s timestamp ds
      else some reference

/-- Errors raised on a transfer request, one constructor per distinct
`ValidationError` raise site in `PINVerificationMixin.validate_pin`,
`TransferSerializer.validate_amount`, `TransferSerializer.validate` and
`TransferSerializer.save`. -/
inductive TransferError
  | PinLength            -- CharField min_length=4 / max_length=4 on `pin`
  | PinNotNumeric        -- "PIN must be numeric."
  | InvalidPin           -- "Invalid transaction PIN."
  | AmountNotPositive    -- "Transfer amount must be positive."
  | SameAccount          -- "Cannot transfer to the same account."
  | SourceNotFound       -- "Source account not found or does not belong to you."
  | DestNotFound         -- "Destination account not found."
  | SourceNotActive      -- "Source account is not active."
  | DestNotActive        -- "Destination account is not active."
  | InsufficientFunds    -- "Insufficient funds."
  | ServerError (msg : String) -- "Transfer failed due to a server error: {e}"
  deriving DecidableEq, Repr

/-- The human-readable message each error carries to the caller. -/
def TransferError.message : TransferError → String
  | .PinLength => "Ensure this field has 4 characters."
  | .PinNotNumeric => "PIN must be numeric."
  | .InvalidPin => "Invalid transaction PIN."
  | .AmountNotPositive => "Transfer amount must be positive."
  | .SameAccount => "Cannot transfer to the same account."
  | .SourceNotFound => "Source account not found or does not belong to you."
  | .DestNotFound => "Destination account not found."
  | .SourceNotActive => "Source account is not active."
  | .DestNotActive => "Destination account is not active."
  | .InsufficientFunds => "Insufficient funds."
  | .ServerError msg => msg

/-- A transfer request as bound by `TransferSerializer`'s declared fields. -/
structure TransferRequest where
  pin : String
  fromAccount : String
  toAccount : String
  amount : Int
  description : Option String
  deriving DecidableEq, Repr

/-- Field-level validation of `pin`: the CharField length bounds, then
`PINVerificationMixin.validate_pin` (digit check, then
`check_transaction_pin`). -/
def validatePinField (u : User) (value : String) : Option TransferError :=
  if value.data.length ≠ 4 then some .PinLength
  else if ¬ value.data.all Char.isDigit then some .PinNotNumeric
  else if ¬ checkTransactionPin u value then some .InvalidPin
  else none

/-- Field-level validation of `amount`: `TransferSerializer.validate_amount`
rejects `value <= Decimal('0.00')`. -/
def validateAmountField (amount : Int) : Option TransferError :=
  if amount ≤ 0 then some .AmountNotPositive else none

/-- DRF's `to_internal_value` runs every field validator and collects all
field errors (by field declaration order: `pin` is declared in
`PINVerificationMixin`, before the fields of `TransferSerializer`, so its
error comes first); object-level `validate` only runs when this list is
empty. -/
def fieldErrors (u : User) (req : TransferRequest) : List TransferError :=
  (validatePinField u req.pin).toList ++ (validateAmountField req.amount).toList

/-- The data `TransferSerializer.validate` stows in `validated_data`
(`from_account_obj`, `to_account_obj`, `amount`, `description`). -/
structure ValidatedTransfer where
  fromAcc : BankAccount
  toAcc : BankAccount
  amount : Int
  description : String
  deriving DecidableEq, Repr

/-- Object-level `TransferSerializer.validate`: same-account check, source
lookup (scoped to the requesting user), destination lookup, status checks,
funds check — in the source's order, first failure raised. -/
def transferValidate (s : Store) (u : User) (req : TransferRequest) :
    Except TransferError ValidatedTransfer :=
  if req.fromAccount == req.toAccount then .error .SameAccount
  else
    match findAccountByNumberAndUser s req.fromAccount u.userId with
    | none => .error .SourceNotFound
    | some fromAcc =>
      match findAccountByNumber s req.toAccount with
      | none => .error .DestNotFound
      | some toAcc =>
        if fromAcc.status ≠ .ACTIVE then .error .SourceNotActive
        else if toAcc.status ≠ .ACTIVE then .error .DestNotActive
        else if fromAcc.availableBalance < req.amount then .error .InsufficientFunds
        else .ok ⟨fromAcc, toAcc, req.amount, req.description.getD "Fund Transfer"⟩

/-- Validation entry point `TransferSerializer.is_valid()`: field phase first (all field errors
reported together), then the object-level `validate`. -/
def transferIsValid (s : Store) (u : User) (req : TransferRequest) :
    Except (List TransferError) ValidatedTransfer :=
  match fieldErrors u req with
  | [] =>
      match transferValidate s u req with
      | .error e => .error [e]
      | .ok v => .ok v
  | es => .error es

/-- Values of the result dict returned by `TransferSerializer.save` (a
Python dict holding booleans, strings, ids and — were it ever put there —
money). -/
inductive RValue
  | b (v : Bool)
  | s (v : String)
  | n (v : Nat)
  | i (v : Int)
  deriving DecidableEq, Repr

/-- The result dict, keys in the order the source literal writes them. -/
abbrev ResultDict := List (String × RValue)

/-- Row rewrite `from_account.save()` / `to_account.save()`: the row with the object's
primary key is rewritten. -/
def updateAccount (l : List BankAccount) (a : BankAccount) : List BankAccount :=
  l.map (fun b => if b.accId == a.accId then a else b)

/-- State of `from_account` after `balance -= amount; available_balance -= amount`. -/
def debitedAccount (fa : BankAccount) (amt : Int) : BankAccount :=
  { fa with balance := fa.balance - amt,
            availableBalance := fa.availableBalance - amt }

/-- State of `to_account` after `balance += amount; available_balance += amount`. -/
def creditedAccount (ta : BankAccount) (amt : Int) : BankAccount :=
  { ta with balance := ta.balance + amt,
            availableBalance := ta.availableBalance + amt }

/-- The DEBIT row `Transaction.objects.create(...)` writes: note the source
computes `balance_before` as `from_account.balance + amount` from the
already-decremented in-memory balance (the user's full name in the
description carries no ledger content and is elided). -/
def debitTxnRow (s : Store) (v : ValidatedTransfer) (ref1 : String) : Txn :=
  let fromAcc := debitedAccount v.fromAcc v.amount
  { txId := s.nextTxId
    accId := fromAcc.accId
    txType := .DEBIT
    amount := v.amount
    description := "Transfer to " ++ v.toAcc.accountNumber
    status := .COMPLETED
    referenceNumber := ref1
    balanceBefore := fromAcc.balance + v.amount
    balanceAfter := fromAcc.balance }

/-- The CREDIT row, with `balance_before = to_account.balance - amount`
computed from the already-incremented in-memory balance. -/
def creditTxnRow (s : Store) (v : ValidatedTransfer) (ref2 : String) : Txn :=
  let toAcc := creditedAccount v.toAcc v.amount
  { txId := s.nextTxId + 1
    accId := toAcc.accId
    txType := .CREDIT
    amount := v.amount
    description := "Transfer from " ++ v.fromAcc.accountNumber
    status := .COMPLETED
    referenceNumber := ref2
    balanceBefore := toAcc.balance - v.amount
    balanceAfter := toAcc.balance }

/-- The store once every write of the atomic block has committed. -/
def transferSuccessStore (s : Store) (v : ValidatedTransfer)
    (ref1 ref2 : String) : Store :=
  { accounts := updateAccount
      (updateAccount s.accounts (debitedAccount v.fromAcc v.amount))
      (creditedAccount v.toAcc v.amount)
    transactions := creditTxnRow s v ref2 :: debitTxnRow s v ref1 :: s.transactions
    nextTxId := s.nextTxId + 2 }

/-- The dict literal `TransferSerializer.save` returns on success. -/
def transferSuccessResult (s : Store) : ResultDict :=
  [("success", .b true),
   ("message", .s "Transfer successful."),
   ("debit_transaction_id", .n s.nextTxId),
   ("credit_transaction_id", .n (s.nextTxId + 1))]

/-- Persistence phase `TransferSerializer.save`: inside `db_transaction.atomic()` the source
is debited, the destination credited, and the DEBIT and CREDIT rows
created, both `COMPLETED`; any exception during the block rolls everything
back and is re-raised as
`ValidationError("Transfer failed due to a server error: " + str(e))`.
`ref1`/`ref2` are the reference numbers `Transaction.save` assigns to the
two rows; `storageFailure` injects the exception text of a failing
persistence call (`none` = every write succeeds).  Returns the caller's
result together with the store after the call (unchanged on failure,
because the atomic block rolled back). -/
def transferSave (s : Store) (v : ValidatedTransfer) (ref1 ref2 : String)
    (storageFailure : Option String) :
    Except TransferError ResultDict × Store :=
  match storageFailure with
  | some e =>
      (.error (.ServerError ("Transfer failed due to a server error: " ++ e)), s)
  | none =>
      (.ok (transferSuccessResult s), transferSuccessStore s v ref1 ref2)

/-- Endpoint `TransactionViewSet.transfer`: `is_valid()` then `save()`; a failing
validation or a failing save surfaces its errors and leaves the store as
it was. -/
def transfer (s : Store) (u : User) (req : TransferRequest)
    (ref1 ref2 : String) (storageFailure : Option String) :
    Except (List TransferError) ResultDict × Store :=
  match transferIsValid s u req with
  | .error es => (.error es, s)
  | .ok v =>
      match transferSave s v ref1 ref2 storageFailure with
      | (.error e, s') => (.error [e], s')
      | (.ok r, s') => (.ok r, s')

/-- Amount `Decimal('50000.00')` in `UserRegistrationSerializer.create`, in kobo
(minor units). -/
def demoAmount : Int := 5000000

/-- The `BankAccount.objects.create(...)` row of
`UserRegistrationSerializer.create`: primary, ACTIVE, funded with the demo
amount in both balance fields. -/
def regAccount (uid accId : Nat) (accountNumber : String) : BankAccount :=
  { accId := accId
    userId := uid
    accountNumber := accountNumber
    balance := demoAmount
    availableBalance := demoAmount
    status := .ACTIVE
    isPrimary := true }

/-- The welcome `Transaction.objects.create(...)` row of
`UserRegistrationSerializer.create`. -/
def regWelcomeTxn (s : Store) (accId : Nat) (accountNumber : String) : Txn :=
  { txId := s.nextTxId
    accId := accId
    txType := .CREDIT
    amount := demoAmount
    balanceBefore := 0
    balanceAfter := demoAmount
    description := "Welcome bonus - Demo funds"
    referenceNumber := "DEMO" ++ accountNumber
    status := .COMPLETED }

/-- Registration `UserRegistrationSerializer.create`: the primary ACTIVE account is
created holding the demo funds, then the welcome CREDIT transaction is
written inside a `try` — `welcomeTxnFails` injects a failing write, which
is swallowed (`except: print(...)`) so registration still succeeds and the
funded account keeps no transaction row. -/
def register (s : Store) (uid accId : Nat) (accountNumber : String)
    (welcomeTxnFails : Bool) : Store :=
  let s1 : Store := { s with accounts := regAccount uid accId accountNumber :: s.accounts }
  if welcomeTxnFails then s1
  else
    { s1 with transactions := regWelcomeTxn s accId accountNumber :: s1.transactions,
              nextTxId := s1.nextTxId + 1 }

/-- Signed amount of a transaction: CREDIT positive, DEBIT negative. -/
def Txn.signedAmount (t : Txn) : Int :=
  match t.txType with
  | .CREDIT => t.amount
  | .DEBIT => -t.amount

/-- Sum of the signed amounts of all COMPLETED transactions referencing the
account. -/
def completedSum (s : Store) (accId : Nat) : Int :=
  ((s.transactions.filter
      (fun t => t.accId == accId && t.status == TxStatus.COMPLETED)).map
    Txn.signedAmount).sum

/-- The ledger identity: every account's stored balance equals the sum of
its completed transaction history. -/
def ledgerInvariant (s : Store) : Prop :=
  ∀ a ∈ s.accounts, a.balance = completedSum s a.accId

instance (s : Store) : Decidable (ledgerInvariant s) :=
  inferInstanceAs (Decidable (∀ a ∈ s.accounts, _))

/-- Well-formedness the database schema enforces (`unique=True` on
`account_number`, primary-key uniqueness on `id`). -/
def storeWF (s : Store) : Prop :=
  (s.accounts.map BankAccount.accId).Nodup ∧
  (s.accounts.map BankAccount.accountNumber).Nodup

instance (s : Store) : Decidable (storeWF s) :=
  inferInstanceAs (Decidable (_ ∧ _))

/-- One API-level operation of the sequences the ledger identity ranges
over: a user registration or a transfer attempt. -/
inductive Op
  | reg (uid accId : Nat) (accountNumber : String) (welcomeTxnFails : Bool)
  | xfer (u : User) (req : TransferRequest) (ref1 ref2 : String)
      (storageFailure : Option String)

/-- Apply one operation to the store; a failed transfer leaves the store
unchanged (`transfer` already returns the unchanged store then). -/
def applyOp (s : Store) : Op → Store
  | .reg uid accId num fails => register s uid accId num fails
  | .xfer u req r1 r2 fl => (transfer s u req r1 r2 fl).2

def applyOps (s : Store) : List Op → Store
  | [] => s
  | op :: ops => applyOps (applyOp s op) ops

/-- Freshness side conditions of a registration (the source draws a fresh
UUID primary key and a unique account number), and the amended proviso
that the welcome-transaction write succeeds. -/
def opOk (s : Store) : Op → Prop
  | .reg _ accId num fails =>
      accId ∉ s.accounts.map BankAccount.accId ∧
      num ∉ s.accounts.map BankAccount.accountNumber ∧
      (∀ t ∈ s.transactions, t.accId ≠ accId) ∧
      fails = false
  | .xfer _ _ _ _ _ => True

def opsOk (s : Store) : List Op → Prop
  | [] => True
  | op :: ops => opOk s op ∧ opsOk (applyOp s op) ops

/-! ### Basic lemmas about lookups and row updates -/

theorem findAccountByNumberAndUser_spec {s : Store} {num : String} {uid : Nat}
    {a : BankAccount} (h : findAccountByNumberAndUser s num uid = some a) :
    a ∈ s.accounts ∧ a.accountNumber = num ∧ a.userId = uid := by
  have hmem := List.mem_of_find?_eq_some h
  have hp := List.find?_some h
  simp only [Bool.and_eq_true, beq_iff_eq] at hp
  exact ⟨hmem, hp.1, hp.2⟩

theorem findAccountByNumber_spec {s : Store} {num : String}
    {a : BankAccount} (h : findAccountByNumber s num = some a) :
    a ∈ s.accounts ∧ a.accountNumber = num := by
  have hmem := List.mem_of_find?_eq_some h
  have hp := List.find?_some h
  simp only [beq_iff_eq] at hp
  exact ⟨hmem, hp⟩

theorem mem_updateAccount {l : List BankAccount} {a b : BankAccount}
    (h : b ∈ updateAccount l a) :
    b = a ∨ (b ∈ l ∧ b.accId ≠ a.accId) := by
  unfold updateAccount at h
  rcases List.mem_map.1 h with ⟨c, hc, hceq⟩
  by_cases hid : c.accId = a.accId
  · left; simpa [hid] using hceq.symm
  · right
    have : b = c := by simpa [hid] using hceq.symm
    exact this ▸ ⟨hc, hid⟩

theorem updateAccount_map_accId (l : List BankAccount) (a : BankAccount) :
    (updateAccount l a).map BankAccount.accId = l.map BankAccount.accId := by
  unfold updateAccount
  rw [List.map_map]
  apply List.map_congr_left
  intro b _
  by_cases hid : b.accId = a.accId
  · simp [Function.comp, hid]
  · simp [Function.comp, hid]

theorem updateAccount_map_accountNumber {l : List BankAccount}
    {a a' : BankAccount} (hnd : (l.map BankAccount.accId).Nodup) (ha : a ∈ l)
    (hid : a'.accId = a.accId) (hnum : a'.accountNumber = a.accountNumber) :
    (updateAccount l a').map BankAccount.accountNumber =
      l.map BankAccount.accountNumber := by
  unfold updateAccount
  rw [List.map_map]
  apply List.map_congr_left
  intro b hb
  by_cases hbid : b.accId = a'.accId
  · have hba : b = a :=
      List.inj_on_of_nodup_map hnd hb ha (by rw [hbid, hid])
    subst hba
    simp [Function.comp, hbid, hnum]
  · simp [Function.comp, hbid]

/-! ### Shape of a transfer call's outcome -/

theorem transfer_error_store {s : Store} {u : User} {req : TransferRequest}
    {r1 r2 : String} {fl : Option String} {es : List TransferError}
    (h : (transfer s u req r1 r2 fl).1 = .error es) :
    (transfer s u req r1 r2 fl).2 = s := by
  unfold transfer at h ⊢
  cases hiv : transferIsValid s u req with
  | error es' => simp
  | ok v =>
    cases fl with
    | none => rw [hiv] at h; simp [transferSave] at h
    | some e => simp [transferSave]

theorem transfer_ok_elim {s : Store} {u : User} {req : TransferRequest}
    {r1 r2 : String} {fl : Option String} {r : ResultDict} {s' : Store}
    (h : transfer s u req r1 r2 fl = (.ok r, s')) :
    fl = none ∧ r = transferSuccessResult s ∧
    ∃ fa ta,
      findAccountByNumberAndUser s req.fromAccount u.userId = some fa ∧
      findAccountByNumber s req.toAccount = some ta ∧
      req.fromAccount ≠ req.toAccount ∧
      fa.status = .ACTIVE ∧ ta.status = .ACTIVE ∧
      ¬ fa.availableBalance < req.amount ∧
      s' = transferSuccessStore s
        ⟨fa, ta, req.amount, req.description.getD "Fund Transfer"⟩ r1 r2 := by
  unfold transfer at h
  cases hiv : transferIsValid s u req with
  | error es => rw [hiv] at h; simp at h
  | ok v =>
    rw [hiv] at h
    cases fl with
    | some e => simp [transferSave] at h
    | none =>
      simp only [transferSave] at h
      obtain ⟨hr, hs'⟩ : r = transferSuccessResult s ∧
          s' = transferSuccessStore s v r1 r2 := by
        have h1 := congrArg Prod.fst h
        have h2 := congrArg Prod.snd h
        simp at h1 h2
        exact ⟨h1.symm, h2.symm⟩
      refine ⟨rfl, hr, ?_⟩
      unfold transferIsValid at hiv
      cases hfe : fieldErrors u req with
      | cons e es => rw [hfe] at hiv; simp at hiv
      | nil =>
        rw [hfe] at hiv
        cases hval : transferValidate s u req with
        | error e => rw [hval] at hiv; simp at hiv
        | ok v' =>
          rw [hval] at hiv
          simp at hiv
          subst hiv
          unfold transferValidate at hval
          by_cases hsame : req.fromAccount = req.toAccount
          · simp [hsame] at hval
          · rw [if_neg (by simpa using hsame)] at hval
            cases hfa : findAccountByNumberAndUser s req.fromAccount u.userId with
            | none => rw [hfa] at hval; simp at hval
            | some fa =>
              rw [hfa] at hval
              cases hta : findAccountByNumber s req.toAccount with
              | none => rw [hta] at hval; simp at hval
              | some ta =>
                rw [hta] at hval
                by_cases hfaA : fa.status = .ACTIVE
                · by_cases htaA : ta.status = .ACTIVE
                  · by_cases hlt : fa.availableBalance < req.amount
                    · simp [hfaA, htaA, hlt] at hval
                    · simp only [hfaA, htaA, hlt] at hval
                      simp at hval
                      exact ⟨fa, ta, rfl, rfl, hsame, hfaA, htaA, hlt,
                        by rw [hs', ← hval]⟩
                  · simp [hfaA, htaA] at hval
                · simp [hfaA] at hval

/-! ### The ledger identity and its preservation -/

theorem completedSum_cons (s s' : Store) (t : Txn) (i : Nat)
    (h : s'.transactions = t :: s.transactions) :
    completedSum s' i =
      (if t.accId = i ∧ t.status = .COMPLETED then t.signedAmount else 0) +
        completedSum s i := by
  unfold completedSum
  rw [h]
  by_cases hc : t.accId = i ∧ t.status = .COMPLETED
  · rw [List.filter_cons_of_pos (by simp [hc.1, hc.2]), if_pos hc]
    simp
  · rw [List.filter_cons_of_neg (by simpa using hc), if_neg hc]
    simp

theorem completedSum_eq_zero {s : Store} {i : Nat}
    (h : ∀ t ∈ s.transactions, t.accId ≠ i) : completedSum s i = 0 := by
  unfold completedSum
  rw [List.filter_eq_nil_iff.mpr (by intro t ht; simp [h t ht])]
  rfl

theorem register_preserves_wf {s : Store} {uid accId : Nat} {num : String}
    {fails : Bool} (hwf : storeWF s)
    (hid : accId ∉ s.accounts.map BankAccount.accId)
    (hnum : num ∉ s.accounts.map BankAccount.accountNumber) :
    storeWF (register s uid accId num fails) := by
  have haccts : (register s uid accId num fails).accounts =
      regAccount uid accId num :: s.accounts := by
    cases fails <;> rfl
  constructor
  · rw [haccts, List.map_cons]
    exact List.nodup_cons.2 ⟨hid, hwf.1⟩
  · rw [haccts, List.map_cons]
    exact List.nodup_cons.2 ⟨hnum, hwf.2⟩

theorem register_preserves_inv {s : Store} {uid accId : Nat} {num : String}
    (hid : accId ∉ s.accounts.map BankAccount.accId)
    (htx : ∀ t ∈ s.transactions, t.accId ≠ accId)
    (hinv : ledgerInvariant s) :
    ledgerInvariant (register s uid accId num false) := by
  have hsum : ∀ i, completedSum (register s uid accId num false) i =
      (if accId = i then demoAmount else 0) + completedSum s i := by
    intro i
    rw [completedSum_cons s (register s uid accId num false)
      (regWelcomeTxn s accId num) i rfl]
    by_cases hc : accId = i
    · rw [if_pos ⟨hc, rfl⟩, if_pos hc]; rfl
    · rw [if_neg (by simpa using fun h _ => hc h), if_neg hc]
  intro a ha
  have haccts : (register s uid accId num false).accounts =
      regAccount uid accId num :: s.accounts := rfl
  rw [haccts] at ha
  rw [hsum a.accId]
  rcases List.mem_cons.1 ha with hreg | hmem
  · subst hreg
    rw [show (regAccount uid accId num).accId = accId from rfl,
      if_pos rfl, completedSum_eq_zero htx, add_zero]
    rfl
  · have hne : accId ≠ a.accId := by
      intro hcontra
      exact hid (hcontra ▸ List.mem_map_of_mem BankAccount.accId hmem)
    rw [if_neg hne, zero_add]
    exact hinv a hmem

theorem transfer_accounts_distinct {s : Store} {num1 num2 : String}
    {uid : Nat} {fa ta : BankAccount} (hwf : storeWF s)
    (hfa : findAccountByNumberAndUser s num1 uid = some fa)
    (hta : findAccountByNumber s num2 = some ta) (hne : num1 ≠ num2) :
    fa.accId ≠ ta.accId := by
  obtain ⟨hfam, hfan, -⟩ := findAccountByNumberAndUser_spec hfa
  obtain ⟨htam, htan⟩ := findAccountByNumber_spec hta
  intro hid
  have heq : fa = ta := List.inj_on_of_nodup_map hwf.1 hfam htam hid
  exact hne (by rw [← hfan, heq, htan])

theorem transfer_preserves_wf {s : Store} {u : User} {req : TransferRequest}
    {r1 r2 : String} {fl : Option String} (hwf : storeWF s) :
    storeWF (transfer s u req r1 r2 fl).2 := by
  rcases hres : transfer s u req r1 r2 fl with ⟨out, s'⟩
  cases out with
  | error es =>
    have h2 : (transfer s u req r1 r2 fl).2 = s :=
      transfer_error_store (by rw [hres])
    rw [hres] at h2
    rw [show (Except.error es (α := List TransferError), s').2 = s' from rfl] at h2 ⊢
    rw [h2]; exact hwf
  | ok r =>
    obtain ⟨-, -, fa, ta, hfa, hta, hne, -, -, -, hs'⟩ := transfer_ok_elim hres
    obtain ⟨hfam, hfan, -⟩ := findAccountByNumberAndUser_spec hfa
    obtain ⟨htam, htan⟩ := findAccountByNumber_spec hta
    have hidne : fa.accId ≠ ta.accId :=
      transfer_accounts_distinct hwf hfa hta hne
    rw [show (Except.ok r (ε := List TransferError), s').2 = s' from rfl, hs']
    set amt := req.amount
    have hinner : (updateAccount s.accounts (debitedAccount fa amt)).map
        BankAccount.accId = s.accounts.map BankAccount.accId :=
      updateAccount_map_accId _ _
    have htam' : ta ∈ updateAccount s.accounts (debitedAccount fa amt) := by
      unfold updateAccount
      exact List.mem_map.2 ⟨ta, htam, by
        rw [if_neg (by simpa [debitedAccount] using (Ne.symm hidne))]⟩
    constructor
    · show (updateAccount (updateAccount s.accounts (debitedAccount fa amt))
        (creditedAccount ta amt)).map BankAccount.accId |>.Nodup
      rw [updateAccount_map_accId, hinner]
      exact hwf.1
    · show (updateAccount (updateAccount s.accounts (debitedAccount fa amt))
        (creditedAccount ta amt)).map BankAccount.accountNumber |>.Nodup
      rw [updateAccount_map_accountNumber (by rw [hinner]; exact hwf.1) htam'
          (by rfl) (by rfl),
        updateAccount_map_accountNumber hwf.1 hfam (by rfl) (by rfl)]
      exact hwf.2

theorem transfer_preserves_inv {s : Store} {u : User} {req : TransferRequest}
    {r1 r2 : String} {fl : Option String}
    (hwf : storeWF s) (hinv : ledgerInvariant s) :
    ledgerInvariant (transfer s u req r1 r2 fl).2 := by
  rcases hres : transfer s u req r1 r2 fl with ⟨out, s'⟩
  cases out with
  | error es =>
    have h2 : (transfer s u req r1 r2 fl).2 = s :=
      transfer_error_store (by rw [hres])
    rw [hres] at h2
    rw [show (Except.error es (α := List TransferError), s').2 = s' from rfl] at h2 ⊢
    rw [h2]; exact hinv
  | ok r =>
    obtain ⟨-, -, fa, ta, hfa, hta, hne, -, -, -, hs'⟩ := transfer_ok_elim hres
    obtain ⟨hfam, hfan, -⟩ := findAccountByNumberAndUser_spec hfa
    obtain ⟨htam, htan⟩ := findAccountByNumber_spec hta
    have hidne : fa.accId ≠ ta.accId :=
      transfer_accounts_distinct hwf hfa hta hne
    rw [show (Except.ok r (ε := List TransferError), s').2 = s' from rfl, hs']
    set amt := req.amount with hamt
    set v : ValidatedTransfer :=
      ⟨fa, ta, amt, req.description.getD "Fund Transfer"⟩ with hv
    set mid : Store := { s with
      transactions := debitTxnRow s v r1 :: s.transactions } with hmid
    have hsum : ∀ i, completedSum (transferSuccessStore s v r1 r2) i =
        (if ta.accId = i then amt else 0) +
          ((if fa.accId = i then -amt else 0) + completedSum s i) := by
      intro i
      rw [completedSum_cons mid (transferSuccessStore s v r1 r2)
        (creditTxnRow s v r2) i rfl]
      rw [completedSum_cons s mid (debitTxnRow s v r1) i rfl]
      congr 1
      · by_cases hc : ta.accId = i
        · rw [if_pos ⟨hc, rfl⟩, if_pos hc]; rfl
        · rw [if_neg (by simpa [creditTxnRow, creditedAccount] using hc),
            if_neg hc]
      · congr 1
        by_cases hc : fa.accId = i
        · rw [if_pos ⟨hc, rfl⟩, if_pos hc]; rfl
        · rw [if_neg (by simpa [debitTxnRow, debitedAccount] using hc),
            if_neg hc]
    intro a ha
    rw [hsum a.accId]
    have ha' : a ∈ updateAccount
        (updateAccount s.accounts (debitedAccount fa amt))
        (creditedAccount ta amt) := ha
    rcases mem_updateAccount ha' with hcta | ⟨ha1, hneta⟩
    · subst hcta
      rw [show (creditedAccount ta amt).accId = ta.accId from rfl,
        if_pos rfl, if_neg hidne, zero_add, ← hinv ta htam]
      show ta.balance + amt = amt + ta.balance
      ring
    · rcases mem_updateAccount ha1 with hdfa | ⟨ha2, hnefa⟩
      · subst hdfa
        rw [show (debitedAccount fa amt).accId = fa.accId from rfl,
          if_neg (Ne.symm hidne), if_pos rfl, ← hinv fa hfam]
        show fa.balance - amt = 0 + (-amt + fa.balance)
        ring
      · have h1 : ta.accId ≠ a.accId := fun h => hneta (h.symm ▸ rfl)
        have h2 : fa.accId ≠ a.accId := fun h => hnefa (h.symm ▸ rfl)
        rw [if_neg h1, if_neg h2, zero_add, zero_add]
        exact hinv a ha2

/-! ### A concrete scenario (the spec's §8 example: two freshly registered
users, a 15000.00 transfer from the 50000.00 account) used to instantiate
the theorems below on explicit inputs -/

def wUser : User := ⟨7, "1234"⟩

def wAccA : BankAccount :=
  ⟨1, 7, "1111111111", 5000000, 5000000, .ACTIVE, true⟩

def wAccB : BankAccount :=
  ⟨2, 8, "2222222222", 200000, 200000, .ACTIVE, true⟩

def wStore : Store := ⟨[wAccA, wAccB], [], 0⟩

def wReq : TransferRequest :=
  ⟨"1234", "1111111111", "2222222222", 1500000, none⟩

def wReqInsufficient : TransferRequest :=
  ⟨"1234", "1111111111", "2222222222", 6000000, none⟩

/-! ### Claim C1 -/

/-- C1 counterexample: the claim fails as stated — a completed registration
whose welcome-transaction write failed (an operation sequence the source
explicitly allows: the exception is swallowed and registration succeeds)
leaves the new account's stored balance at 50000.00 while its COMPLETED
transaction rows sum to 0. -/
theorem ledger_identity_cex :
    ¬ ledgerInvariant (applyOps Store.empty [Op.reg 9 1 "3333333333" true]) := by
  decide

/-- C1 (amended): after every completed operation sequence of user
registrations **whose welcome-transaction write succeeds** and transfer
calls (successful or failed), starting from a well-formed store satisfying
the ledger identity, every account's stored balance equals the sum of the
signed amounts (CREDIT positive, DEBIT negative) of all COMPLETED
transaction rows referencing that account. -/
theorem ledger_identity_preserved (s : Store) (ops : List Op)
    (hwf : storeWF s) (hinv : ledgerInvariant s) (hops : opsOk s ops) :
    ledgerInvariant (applyOps s ops) := by
  induction ops generalizing s with
  | nil => exact hinv
  | cons op ops ih =>
    obtain ⟨hok, hops'⟩ := hops
    cases op with
    | reg uid accId num fails =>
      obtain ⟨h1, h2, h3, h4⟩ := hok
      subst h4
      exact ih _ (register_preserves_wf hwf h1 h2)
        (register_preserves_inv h1 h3 hinv) hops'
    | xfer u req r1 r2 fl =>
      exact ih _ (transfer_preserves_wf hwf)
        (transfer_preserves_inv hwf hinv) hops'

/-- Witness for `ledger_identity_preserved`: two registrations followed by
the example transfer, starting from the empty store. -/
theorem ledger_identity_preserved_witness :
    ledgerInvariant (applyOps Store.empty
      [Op.reg 7 1 "1111111111" false, Op.reg 8 2 "2222222222" false,
       Op.xfer wUser wReq "TXNA" "TXNB" none]) :=
  ledger_identity_preserved _ _ (by decide) (by decide)
    ⟨⟨by decide, by decide, by decide, rfl⟩,
     ⟨by decide, by decide, by decide, rfl⟩, trivial, trivial⟩

/-! ### Claim C4 -/

/-- C4: every transfer call either leaves the transaction table unchanged
(creates zero rows) or pushes exactly one COMPLETED DEBIT row on the
validated source account and one COMPLETED CREDIT row on the validated
destination account, and on each created row `balance_after −
balance_before` is `−amount` for the DEBIT and `+amount` for the CREDIT. -/
theorem transfer_txn_pair (s : Store) (u : User) (req : TransferRequest)
    (r1 r2 : String) (fl : Option String) :
    (transfer s u req r1 r2 fl).2.transactions = s.transactions ∨
    ∃ fa ta,
      findAccountByNumberAndUser s req.fromAccount u.userId = some fa ∧
      findAccountByNumber s req.toAccount = some ta ∧
      ∃ d c,
        (transfer s u req r1 r2 fl).2.transactions = c :: d :: s.transactions ∧
        d.txType = .DEBIT ∧ d.accId = fa.accId ∧ d.status = .COMPLETED ∧
        d.amount = req.amount ∧
        d.balanceAfter - d.balanceBefore = -req.amount ∧
        c.txType = .CREDIT ∧ c.accId = ta.accId ∧ c.status = .COMPLETED ∧
        c.amount = req.amount ∧
        c.balanceAfter - c.balanceBefore = req.amount := by
  rcases hres : transfer s u req r1 r2 fl with ⟨out, s'⟩
  cases out with
  | error es =>
    left
    have h2 : (transfer s u req r1 r2 fl).2 = s :=
      transfer_error_store (by rw [hres])
    rw [hres] at h2
    exact congrArg Store.transactions h2
  | ok r =>
    right
    obtain ⟨-, -, fa, ta, hfa, hta, -, -, -, -, hs'⟩ := transfer_ok_elim hres
    subst hs'
    refine ⟨fa, ta, hfa, hta,
      debitTxnRow s ⟨fa, ta, req.amount, req.description.getD "Fund Transfer"⟩ r1,
      creditTxnRow s ⟨fa, ta, req.amount, req.description.getD "Fund Transfer"⟩ r2,
      rfl, rfl, rfl, rfl, rfl, ?_, rfl, rfl, rfl, rfl, ?_⟩
    · show fa.balance - req.amount -
        (fa.balance - req.amount + req.amount) = -req.amount
      ring
    · show ta.balance + req.amount -
        (ta.balance + req.amount - req.amount) = req.amount
      ring

/-! ### Claim C5 -/

/-- C5: every transfer call that fails — during field validation,
cross-field validation, or the persistence phase (where the atomic block
rolls back) — leaves the entire store, in particular both accounts'
`balance`/`available_balance` and the set of transaction rows, exactly as
it was before the call. -/
theorem transfer_failure_rollback (s : Store) (u : User)
    (req : TransferRequest) (r1 r2 : String) (fl : Option String)
    (es : List TransferError)
    (h : (transfer s u req r1 r2 fl).1 = .error es) :
    (transfer s u req r1 r2 fl).2 = s :=
  transfer_error_store h

/-- Witness for `transfer_failure_rollback`: the spec's §8 insufficient
funds example (transfer of more than the balance fails and changes
nothing), plus a persistence-phase failure on a valid request. -/
theorem transfer_failure_rollback_witness :
    (transfer wStore wUser wReqInsufficient "TXNA" "TXNB" none).2 = wStore ∧
    (transfer wStore wUser wReq "TXNA" "TXNB" (some "disk full")).2 = wStore :=
  ⟨transfer_failure_rollback _ _ _ _ _ _ [TransferError.InsufficientFunds]
      (by decide),
   transfer_failure_rollback _ _ _ _ _ _
      [TransferError.ServerError "Transfer failed due to a server error: disk full"]
      (by decide)⟩

/-! ### Claim C8 -/

/-- C8: if `available_balance` equals `balance` on both the looked-up
source and destination accounts before a successful transfer, the equality
still holds on both accounts afterwards — the debit and the credit change
both fields by the same amount. -/
theorem available_balance_tracks_balance (s : Store) (u : User)
    (req : TransferRequest) (r1 r2 : String) (fl : Option String)
    (r : ResultDict) (s' : Store) (fa ta : BankAccount)
    (h : transfer s u req r1 r2 fl = (.ok r, s'))
    (hfa : findAccountByNumberAndUser s req.fromAccount u.userId = some fa)
    (hta : findAccountByNumber s req.toAccount = some ta)
    (hfaEq : fa.availableBalance = fa.balance)
    (htaEq : ta.availableBalance = ta.balance) :
    ∀ a ∈ s'.accounts, (a.accId = fa.accId ∨ a.accId = ta.accId) →
      a.availableBalance = a.balance := by
  obtain ⟨-, -, fa', ta', hfa', hta', -, -, -, -, hs'⟩ := transfer_ok_elim h
  obtain rfl : fa' = fa := Option.some.inj (hfa'.symm.trans hfa)
  obtain rfl : ta' = ta := Option.some.inj (hta'.symm.trans hta)
  subst hs'
  intro a ha hacc
  have ha' : a ∈ updateAccount
      (updateAccount s.accounts (debitedAccount fa' req.amount))
      (creditedAccount ta' req.amount) := ha
  rcases mem_updateAccount ha' with hcta | ⟨ha1, hneta⟩
  · subst hcta
    show ta'.availableBalance + req.amount = ta'.balance + req.amount
    rw [htaEq]
  · rcases mem_updateAccount ha1 with hdfa | ⟨ha2, hnefa⟩
    · subst hdfa
      show fa'.availableBalance - req.amount = fa'.balance - req.amount
      rw [hfaEq]
    · rcases hacc with hh | hh
      · exact absurd hh hnefa
      · exact absurd hh hneta

/-- Witness for `available_balance_tracks_balance`: the updated source
account of the example transfer keeps the two fields equal. -/
theorem available_balance_tracks_balance_witness :
    (debitedAccount wAccA 1500000).availableBalance =
      (debitedAccount wAccA 1500000).balance :=
  available_balance_tracks_balance wStore wUser wReq "TXNA" "TXNB" none
    (transferSuccessResult wStore)
    (transferSuccessStore wStore ⟨wAccA, wAccB, 1500000, "Fund Transfer"⟩
      "TXNA" "TXNB")
    wAccA wAccB rfl rfl rfl rfl rfl
    (debitedAccount wAccA 1500000) (by decide) (Or.inl rfl)

/-! ### Claim C10 -/

/-- C10: every successful registration creates exactly one bank account —
primary, ACTIVE, with balance and available_balance both 50000.00 — and,
when its write succeeds, one COMPLETED CREDIT welcome transaction of
amount 50000.00 with balance_before 0.00, balance_after 50000.00 and
reference number "DEMO" followed by the account number; a failing welcome
write does not fail registration and leaves the funded account with no
transaction row. -/
theorem registration_creates_funded_account (s : Store) (uid accId : Nat)
    (num : String) (fails : Bool)
    (hfresh : ∀ t ∈ s.transactions, t.accId ≠ accId) :
    (register s uid accId num fails).accounts =
      regAccount uid accId num :: s.accounts ∧
    (regAccount uid accId num).balance = demoAmount ∧
    (regAccount uid accId num).availableBalance = demoAmount ∧
    (regAccount uid accId num).status = .ACTIVE ∧
    (regAccount uid accId num).isPrimary = true ∧
    (regAccount uid accId num).accId = accId ∧
    (regAccount uid accId num).userId = uid ∧
    (fails = false →
      (register s uid accId num fails).transactions =
        regWelcomeTxn s accId num :: s.transactions ∧
      (regWelcomeTxn s accId num).txType = .CREDIT ∧
      (regWelcomeTxn s accId num).status = .COMPLETED ∧
      (regWelcomeTxn s accId num).amount = demoAmount ∧
      (regWelcomeTxn s accId num).balanceBefore = 0 ∧
      (regWelcomeTxn s accId num).balanceAfter = demoAmount ∧
      (regWelcomeTxn s accId num).accId = accId ∧
      (regWelcomeTxn s accId num).referenceNumber = "DEMO" ++ num) ∧
    (fails = true →
      (register s uid accId num fails).transactions = s.transactions ∧
      (register s uid accId num fails).transactions.filter
        (fun t => t.accId == accId) = []) := by
  refine ⟨by cases fails <;> rfl, rfl, rfl, rfl, rfl, rfl, rfl, ?_, ?_⟩
  · rintro rfl
    exact ⟨rfl, rfl, rfl, rfl, rfl, rfl, rfl, rfl⟩
  · rintro rfl
    exact ⟨rfl,
      List.filter_eq_nil_iff.mpr (fun t ht => by simpa using hfresh t ht)⟩

/-- Witness for `registration_creates_funded_account`: a registration into
the empty store. -/
theorem registration_creates_funded_account_witness :
    (register Store.empty 9 3 "4444444444" false).accounts =
      regAccount 9 3 "4444444444" :: [] ∧
    (register Store.empty 9 3 "4444444444" false).transactions =
      regWelcomeTxn Store.empty 3 "4444444444" :: [] :=
  ⟨(registration_creates_funded_account Store.empty 9 3 "4444444444" false
      (by decide)).1,
   ((registration_creates_funded_account Store.empty 9 3 "4444444444" false
      (by decide)).2.2.2.2.2.2.2.1 rfl).1⟩

/-! ### Claim C2 -/

theorem validatePinField_cases {u : User} {v : String} {e : TransferError}
    (h : validatePinField u v = some e) :
    e = .PinLength ∨ e = .PinNotNumeric ∨ e = .InvalidPin := by
  unfold validatePinField at h
  split at h
  · exact Or.inl (Option.some.inj h).symm
  · split at h
    · exact Or.inr (Or.inl (Option.some.inj h).symm)
    · split at h
      · exact Or.inr (Or.inr (Option.some.inj h).symm)
      · exact absurd h (by simp)

theorem validateAmountField_cases {amt : Int} {e : TransferError}
    (h : validateAmountField amt = some e) : e = .AmountNotPositive := by
  unfold validateAmountField at h
  split at h
  · exact (Option.some.inj h).symm
  · exact absurd h (by simp)

/-- A failing serializer validation is surfaced unchanged by the view. -/
theorem transfer_fst_of_invalid {s : Store} {u : User} {req : TransferRequest}
    {r1 r2 : String} {fl : Option String} {es : List TransferError}
    (h : transferIsValid s u req = .error es) :
    (transfer s u req r1 r2 fl).1 = .error es := by
  unfold transfer
  rw [h]

theorem transfer_fst_of_validate_error {s : Store} {u : User}
    {req : TransferRequest} {r1 r2 : String} {fl : Option String}
    {e : TransferError} (hfe : fieldErrors u req = [])
    (h : transferValidate s u req = .error e) :
    (transfer s u req r1 r2 fl).1 = .error [e] := by
  apply transfer_fst_of_invalid
  unfold transferIsValid
  rw [hfe, h]

def cexReqC2 : TransferRequest := ⟨"9999", "0000000000", "2222222222", 100, none⟩

/-- C2 counterexample: for a request whose source account does not exist
(`"0000000000"` is in no account row) and whose PIN is also wrong
(stored PIN is "1234", supplied "9999"), the reported error is the PIN
error (`AuthorizationFailed`), not the source-account error — the claimed
check order (accounts before PIN) does not hold. -/
theorem validation_order_cex :
    validatePinField wUser cexReqC2.pin = some TransferError.InvalidPin ∧
    findAccountByNumberAndUser wStore cexReqC2.fromAccount wUser.userId = none ∧
    (transfer wStore wUser cexReqC2 "TXNA" "TXNB" none).1 =
      .error [TransferError.InvalidPin] ∧
    TransferError.SourceNotFound ∉ [TransferError.InvalidPin] :=
  ⟨rfl, rfl, rfl, by decide⟩

/-- C2 (amended): field-level validations run first — the PIN checks
(4 characters, numeric, matching the stored credential) and amount
positivity — and all their failures are collected and reported together,
before any account check runs; in particular a request whose source
account is unavailable and whose PIN is also wrong reports the PIN error
(`AuthorizationFailed`), not the source-account error.  Only when every
field passes do the cross-field checks run, in order: (1) source ≠
destination, (2) source account exists and belongs to the requester, (3)
destination account exists, (4) source ACTIVE, (5) destination ACTIVE,
(6) sufficient available funds — the first failing check determining the
reported error. -/
theorem transfer_validation_order (s : Store) (u : User)
    (req : TransferRequest) (r1 r2 : String) (fl : Option String) :
    (fieldErrors u req ≠ [] →
      (transfer s u req r1 r2 fl).1 = .error (fieldErrors u req) ∧
      ∀ e ∈ fieldErrors u req,
        e = .PinLength ∨ e = .PinNotNumeric ∨ e = .InvalidPin ∨
          e = .AmountNotPositive) ∧
    (fieldErrors u req = [] →
      (req.fromAccount = req.toAccount →
        (transfer s u req r1 r2 fl).1 = .error [.SameAccount]) ∧
      (req.fromAccount ≠ req.toAccount →
        (findAccountByNumberAndUser s req.fromAccount u.userId = none →
          (transfer s u req r1 r2 fl).1 = .error [.SourceNotFound]) ∧
        ∀ fa, findAccountByNumberAndUser s req.fromAccount u.userId = some fa →
          (findAccountByNumber s req.toAccount = none →
            (transfer s u req r1 r2 fl).1 = .error [.DestNotFound]) ∧
          ∀ ta, findAccountByNumber s req.toAccount = some ta →
            (fa.status ≠ .ACTIVE →
              (transfer s u req r1 r2 fl).1 = .error [.SourceNotActive]) ∧
            (fa.status = .ACTIVE → ta.status ≠ .ACTIVE →
              (transfer s u req r1 r2 fl).1 = .error [.DestNotActive]) ∧
            (fa.status = .ACTIVE → ta.status = .ACTIVE →
              fa.availableBalance < req.amount →
              (transfer s u req r1 r2 fl).1 =
                .error [.InsufficientFunds]))) := by
  constructor
  · intro hne
    constructor
    · apply transfer_fst_of_invalid
      unfold transferIsValid
      cases hfe : fieldErrors u req with
      | nil => exact absurd hfe hne
      | cons e es => rfl
    · intro e he
      unfold fieldErrors at he
      rcases List.mem_append.1 he with hm | hm
      · cases hv : validatePinField u req.pin with
        | none => rw [hv] at hm; simp at hm
        | some e' =>
          rw [hv] at hm
          simp at hm
          subst hm
          rcases validatePinField_cases hv with h | h | h
          · exact Or.inl h
          · exact Or.inr (Or.inl h)
          · exact Or.inr (Or.inr (Or.inl h))
      · cases hv : validateAmountField req.amount with
        | none => rw [hv] at hm; simp at hm
        | some e' =>
          rw [hv] at hm
          simp at hm
          subst hm
          exact Or.inr (Or.inr (Or.inr (validateAmountField_cases hv)))
  · intro hfe
    constructor
    · intro hsame
      exact transfer_fst_of_validate_error hfe
        (by unfold transferValidate; rw [if_pos (by simpa using hsame)])
    · intro hne
      constructor
      · intro hnofa
        exact transfer_fst_of_validate_error hfe
          (by unfold transferValidate
              rw [if_neg (by simpa using hne), hnofa])
      · intro fa hfa
        constructor
        · intro hnota
          exact transfer_fst_of_validate_error hfe
            (by unfold transferValidate
                rw [if_neg (by simpa using hne), hfa, hnota])
        · intro ta hta
          refine ⟨?_, ?_, ?_⟩
          · intro hfaA
            exact transfer_fst_of_validate_error hfe
              (by simp [transferValidate, hne, hfa, hta, hfaA])
          · intro hfaA htaA
            exact transfer_fst_of_validate_error hfe
              (by simp [transferValidate, hne, hfa, hta, hfaA, htaA])
          · intro hfaA htaA hlt
            exact transfer_fst_of_validate_error hfe
              (by simp [transferValidate, hne, hfa, hta, hfaA, htaA, hlt])

/-- Witness for `transfer_validation_order`: the insufficient-funds branch
instantiated on the concrete example store. -/
theorem transfer_validation_order_witness :
    (transfer wStore wUser wReqInsufficient "TXNA" "TXNB" none).1 =
      .error [TransferError.InsufficientFunds] :=
  ((((transfer_validation_order wStore wUser wReqInsufficient "TXNA" "TXNB"
      none).2 rfl).2 (by decide)).2 wAccA rfl).2 wAccB rfl |>.2.2 rfl rfl
    (by decide)

/-! ### Claim C3 -/

def refSuffixes : List String :=
  ["1000", "1001", "1002", "1003", "1004", "1005", "1006", "1007", "1008",
   "1009", "1010"]

/-- A transaction table already holding eleven references that collide with
the first eleven drawn suffixes. -/
def refStore : Store :=
  ⟨[], refSuffixes.map (fun d =>
      ⟨0, 0, .CREDIT, 100, 0, 100, "", "TXN20250101000000" ++ d, .COMPLETED⟩),
   0⟩

/-- C3 counterexample: eleven successive collisions (more than the claimed
cap of about ten) do not make reference generation fail with a
`ReferenceExhausted`-style outcome — the generator keeps re-rolling and
returns the twelfth candidate. -/
theorem reference_retry_cex :
    (refSuffixes.filter
        (fun d => refExists refStore ("TXN20250101000000" ++ d))).length = 11 ∧
    generateReferenceNumber refStore "20250101000000" (refSuffixes ++ ["9999"]) =
      some "TXN202501010000009999" :=
  ⟨rfl, rfl⟩

/-- C3 (amended): on collision `generate_reference_number` re-rolls the
random suffix and retries without any cap: the result is the reference
built from the first drawn suffix that is not already in the store, however
many collisions precede it, and there is no `ReferenceExhausted` failure —
the loop simply keeps drawing (`none`, i.e. still looping, exactly as long
as every drawn candidate collides). -/
theorem generateReferenceNumber_first_free (s : Store) (ts : String)
    (cands : List String) :
    generateReferenceNumber s ts cands =
      (cands.find? (fun d => ! refExists s ("TXN" ++ ts ++ d))).map
        (fun d => "TXN" ++ ts ++ d) ∧
    (generateReferenceNumber s ts cands = none ↔
      ∀ d ∈ cands, refExists s ("TXN" ++ ts ++ d) = true) := by
  have hmain : generateReferenceNumber s ts cands =
      (cands.find? (fun d => ! refExists s ("TXN" ++ ts ++ d))).map
        (fun d => "TXN" ++ ts ++ d) := by
    induction cands with
    | nil => rfl
    | cons d ds ih =>
      by_cases h : refExists s ("TXN" ++ ts ++ d)
      · rw [show generateReferenceNumber s ts (d :: ds) =
            generateReferenceNumber s ts ds from by
              simp only [generateReferenceNumber]; rw [if_pos h],
          ih, List.find?_cons_of_neg _ (by simp [h])]
      · rw [show generateReferenceNumber s ts (d :: ds) =
            some ("TXN" ++ ts ++ d) from by
              simp only [generateReferenceNumber]; rw [if_neg h],
          List.find?_cons_of_pos _ (by simp [h])]
        rfl
  refine ⟨hmain, ?_⟩
  rw [hmain]
  constructor
  · intro hnone d hd
    have h1 : cands.find? (fun d => ! refExists s ("TXN" ++ ts ++ d)) = none :=
      Option.map_eq_none'.1 hnone
    simpa using List.find?_eq_none.1 h1 d hd
  · intro hall
    rw [List.find?_eq_none.2 (fun d hd => by simp [hall d hd])]
    rfl

/-- Witness for `generateReferenceNumber_first_free` at the concrete
colliding store. -/
theorem generateReferenceNumber_first_free_witness :
    generateReferenceNumber refStore "20250101000000" (refSuffixes ++ ["9999"]) =
      ((refSuffixes ++ ["9999"]).find?
          (fun d => ! refExists refStore ("TXN" ++ "20250101000000" ++ d))).map
        (fun d => "TXN" ++ "20250101000000" ++ d) :=
  (generateReferenceNumber_first_free refStore "20250101000000"
    (refSuffixes ++ ["9999"])).1

/-! ### Claim C6 -/

/-- C6 counterexample: the result of the concrete successful example
transfer carries only the success flag, the message and the two
transaction ids; neither reference number ("TXNA"/"TXNB") nor the source
account's new balance (35000.00, held by the updated source row) occurs
among its values, contradicting the claim. -/
theorem transfer_result_cex :
    (transfer wStore wUser wReq "TXNA" "TXNB" none).1 =
      .ok [("success", RValue.b true),
           ("message", RValue.s "Transfer successful."),
           ("debit_transaction_id", RValue.n 0),
           ("credit_transaction_id", RValue.n 1)] ∧
    (transfer wStore wUser wReq "TXNA" "TXNB" none).2.accounts.any
      (fun a => a.accountNumber == "1111111111" && a.balance == 3500000) = true ∧
    ([("success", RValue.b true),
      ("message", RValue.s "Transfer successful."),
      ("debit_transaction_id", RValue.n 0),
      ("credit_transaction_id", RValue.n 1)].all
      (fun kv => kv.2 != RValue.s "TXNA" && kv.2 != RValue.s "TXNB" &&
        kv.2 != RValue.i 3500000)) = true :=
  ⟨rfl, rfl, rfl⟩

/-- C6 (amended): the dict returned to the caller on a successful transfer
contains a success flag, a fixed message and both new Transaction ids, and
nothing else — in particular neither reference number nor any monetary
value (such as the source account's new balance) appears among its
values. -/
theorem transfer_result_fields (s : Store) (u : User) (req : TransferRequest)
    (r1 r2 : String) (fl : Option String) (r : ResultDict) (s' : Store)
    (h : transfer s u req r1 r2 fl = (.ok r, s'))
    (h1 : r1 ≠ "Transfer successful.") (h2 : r2 ≠ "Transfer successful.") :
    r = [("success", RValue.b true),
         ("message", RValue.s "Transfer successful."),
         ("debit_transaction_id", RValue.n s.nextTxId),
         ("credit_transaction_id", RValue.n (s.nextTxId + 1))] ∧
    ∀ kv ∈ r, kv.2 ≠ RValue.s r1 ∧ kv.2 ≠ RValue.s r2 ∧
      ∀ x : Int, kv.2 ≠ RValue.i x := by
  obtain ⟨-, hr, -⟩ := transfer_ok_elim h
  subst hr
  refine ⟨rfl, ?_⟩
  intro kv hkv
  have hkv' : kv = ("success", RValue.b true) ∨
      kv = ("message", RValue.s "Transfer successful.") ∨
      kv = ("debit_transaction_id", RValue.n s.nextTxId) ∨
      kv = ("credit_transaction_id", RValue.n (s.nextTxId + 1)) := by
    simpa [transferSuccessResult] using hkv
  rcases hkv' with rfl | rfl | rfl | rfl
  · exact ⟨by simp, by simp, fun x => by simp⟩
  · refine ⟨?_, ?_, fun x => by simp⟩
    · intro hc
      exact h1 (by simpa using hc.symm)
    · intro hc
      exact h2 (by simpa using hc.symm)
  · exact ⟨by simp, by simp, fun x => by simp⟩
  · exact ⟨by simp, by simp, fun x => by simp⟩

/-- Witness for `transfer_result_fields` on the concrete example
transfer. -/
theorem transfer_result_fields_witness :
    transferSuccessResult wStore =
      [("success", RValue.b true),
       ("message", RValue.s "Transfer successful."),
       ("debit_transaction_id", RValue.n wStore.nextTxId),
       ("credit_transaction_id", RValue.n (wStore.nextTxId + 1))] :=
  (transfer_result_fields wStore wUser wReq "TXNA" "TXNB" none
    (transferSuccessResult wStore)
    (transferSuccessStore wStore ⟨wAccA, wAccB, 1500000, "Fund Transfer"⟩
      "TXNA" "TXNB")
    rfl (by decide) (by decide)).1

/-! ### Claim C7 -/

/-- C7 counterexample: with an injected storage failure whose exception
text is "UNIQUE constraint failed: transactions.reference_number", the
caller-visible error message is the fixed prefix followed verbatim by that
raw internal text — storage-layer error details are leaked to the
caller. -/
theorem error_leak_cex :
    (transfer wStore wUser wReq "TXNA" "TXNB"
        (some "UNIQUE constraint failed: transactions.reference_number")).1 =
      .error [TransferError.ServerError
        ("Transfer failed due to a server error: " ++
          "UNIQUE constraint failed: transactions.reference_number")] ∧
    TransferError.message (TransferError.ServerError
        ("Transfer failed due to a server error: " ++
          "UNIQUE constraint failed: transactions.reference_number")) =
      "Transfer failed due to a server error: " ++
        "UNIQUE constraint failed: transactions.reference_number" :=
  ⟨rfl, rfl⟩

/-- C7 (amended): every surfaced transfer error consists of an error kind
with a human-readable message, but a persistence-phase failure is surfaced
as a validation error whose message embeds the raw storage exception text
verbatim after the prefix "Transfer failed due to a server error: " —
internal storage error details do reach the caller. -/
theorem storage_error_surfaced_raw (s : Store) (u : User)
    (req : TransferRequest) (r1 r2 : String) (eMsg : String)
    (v : ValidatedTransfer) (hv : transferIsValid s u req = .ok v) :
    (transfer s u req r1 r2 (some eMsg)).1 =
      .error [.ServerError
        ("Transfer failed due to a server error: " ++ eMsg)] ∧
    ∀ e ∈ [TransferError.ServerError
        ("Transfer failed due to a server error: " ++ eMsg)],
      ∃ p, TransferError.message e = p ++ eMsg := by
  constructor
  · unfold transfer
    rw [hv]
    rfl
  · intro e he
    have he' : e = TransferError.ServerError
        ("Transfer failed due to a server error: " ++ eMsg) := by
      simpa using he
    subst he'
    exact ⟨"Transfer failed due to a server error: ", rfl⟩

/-- Witness for `storage_error_surfaced_raw` at a concrete storage
failure. -/
theorem storage_error_surfaced_raw_witness :
    (transfer wStore wUser wReq "TXNA" "TXNB" (some "deadlock detected")).1 =
      .error [TransferError.ServerError
        ("Transfer failed due to a server error: " ++ "deadlock detected")] :=
  (storage_error_surfaced_raw wStore wUser wReq "TXNA" "TXNB"
    "deadlock detected" ⟨wAccA, wAccB, 1500000, "Fund Transfer"⟩ rfl).1

end BankingApi
